import Mathlib

/-!
Shallow embedding of the LMS Flask application (src/app.py) and proofs
about its enrollment / authorization / cascade behaviour.

Modelling conventions:
  * Database tables are Lean lists of rows; `nextId` models the
    autoincrement integer primary key.
  * The upload folder (`UPLOAD_FOLDER`) is a list of filenames present on
    disk; file contents are not tracked, only presence, which is all the
    claims need.
  * The session `(user_id, user_role)` pair installed by `login` is the
    `Caller` structure; every route reads it.
  * Route outcomes: a flash+redirect refusal is `forbidden`, `get_or_404`
    misses are `notFound`, an SQLAlchemy constraint violation at commit is
    `integrityError`, an unhandled exception (e.g. a failing `file.save`)
    is `internalError`, and every successful redirect is `ok`.
  * `werkzeug.security.check_password_hash` and
    `werkzeug.utils.secure_filename` are external collaborators; they are
    passed in as function arguments (`verify`, `sanitize`).
  * SQLAlchemy semantics embedded where the source relies on them:
    `Lesson.files` carries `cascade="all, delete-orphan"`, so deleting a
    Lesson deletes its LessonFile rows; `Course.lessons` and
    `Course.enrollments` (the backrefs of the `Lesson.course` and
    `Enrollment.course` relationships) carry only the default
    "save-update, merge" cascade, so `db.session.delete(course)` tries to
    null out the children's `course_id` foreign keys at flush time, and
    since those columns are declared `nullable=False` the flush raises
    IntegrityError and the transaction does not commit.
-/

namespace LMS

/-- `User` model: id, name, email, password (stored hash), role
("student" / "teacher"). -/
structure User where
  id : Nat
  name : String
  email : String
  password : String
  role : String
deriving Repr, DecidableEq

/-- `Course` model: id, title, description, teacher_id → User. -/
structure Course where
  id : Nat
  title : String
  description : String
  teacher_id : Nat
deriving Repr, DecidableEq

/-- `Enrollment` model: id, student_id → User, course_id → Course. -/
structure Enrollment where
  id : Nat
  student_id : Nat
  course_id : Nat
deriving Repr, DecidableEq

/-- `Lesson` model: id, title, content, course_id → Course.  The Python
object may hold `content = None` (the form field is optional) even though
the column is declared `nullable=False`; hence `Option String` here, with
the NOT NULL constraint enforced at commit time by the operations. -/
structure Lesson where
  id : Nat
  title : String
  content : Option String
  course_id : Nat
deriving Repr, DecidableEq

/-- `LessonFile` model: id, filename (the sanitized stored name),
lesson_id → Lesson. -/
structure LessonFile where
  id : Nat
  filename : String
  lesson_id : Nat
deriving Repr, DecidableEq

/-- The whole persistent state: the five tables plus the names present in
the shared upload folder. -/
structure DB where
  users : List User
  courses : List Course
  enrollments : List Enrollment
  lessons : List Lesson
  lessonFiles : List LessonFile
  uploads : List String
deriving Repr, DecidableEq

/-- The session context every `@login_required` route reads:
`session["user_id"]` and `session["user_role"]`. -/
structure Caller where
  id : Nat
  role : String
deriving Repr, DecidableEq

/-- Route outcome, as observable by the HTTP client. -/
inductive Outcome where
  | ok
  | notFound
  | forbidden
  | integrityError
  | internalError
deriving Repr, DecidableEq

/-- Autoincrement primary key: one more than the largest id in use. -/
def nextId (ids : List Nat) : Nat :=
  ids.foldr max 0 + 1

/-- `login` (POST branch): looks the user up by email; if absent or the
password hash does not verify, the one shared branch flashes
"Invalid credentials" and redirects back to the login page; otherwise the
session is populated and the client is sent to the dashboard.
`verify hash password` stands for `check_password_hash(hash, password)`. -/
inductive LoginResult where
  | success (userId : Nat) (name : String) (role : String)
  | invalidCredentials
deriving Repr, DecidableEq

def login (verify : String → String → Bool) (users : List User)
    (email password : String) : LoginResult :=
  match users.find? (fun u => u.email = email) with
  | none => .invalidCredentials
  | some u =>
      if verify u.password password then .success u.id u.name u.role
      else .invalidCredentials

/-- `dashboard` / `all_courses` enrollment listing:
`[e.course_id for e in Enrollment.query.filter_by(student_id=sid)]`. -/
def listEnrolledCourseIds (sid : Nat) (db : DB) : List Nat :=
  (db.enrollments.filter (fun e => e.student_id = sid)).map
    (fun e => e.course_id)

/-- `enroll` route: students only (others are redirected unchanged); if an
Enrollment row for the pair already exists the route just redirects;
otherwise a new row is committed.  The course id is never looked up. -/
def enroll (caller : Caller) (course_id : Nat) (db : DB) : Outcome × DB :=
  if caller.role ≠ "student" then (.ok, db)
  else if db.enrollments.any
      (fun e => e.student_id = caller.id ∧ e.course_id = course_id) then
    (.ok, db)
  else
    (.ok, { db with enrollments := db.enrollments ++
      [⟨nextId (db.enrollments.map (fun e => e.id)), caller.id, course_id⟩] })

/-- `edit_course` route (POST branch): `@teacher_required`, then
`get_or_404`, then the ownership check, then overwrite title/description
and commit. -/
def edit_course (caller : Caller) (course_id : Nat)
    (title description : String) (db : DB) : Outcome × DB :=
  if caller.role ≠ "teacher" then (.forbidden, db)
  else
    match db.courses.find? (fun c => c.id = course_id) with
    | none => (.notFound, db)
    | some c =>
        if c.teacher_id ≠ caller.id then (.forbidden, db)
        else
          (.ok, { db with courses := db.courses.map (fun x =>
            if x.id = c.id then
              { x with title := title, description := description }
            else x) })

/-- `delete_course` route: `@teacher_required`, `get_or_404`, ownership
check, then `db.session.delete(course); db.session.commit()`.  Neither
`Course.lessons` nor `Course.enrollments` has a delete cascade, so at
flush SQLAlchemy nulls the children's NOT NULL `course_id` columns: with
any referencing Lesson or Enrollment the commit raises IntegrityError and
the state is unchanged; only a childless course row is actually deleted.
No file is ever touched. -/
def delete_course (caller : Caller) (course_id : Nat) (db : DB) :
    Outcome × DB :=
  if caller.role ≠ "teacher" then (.forbidden, db)
  else
    match db.courses.find? (fun c => c.id = course_id) with
    | none => (.notFound, db)
    | some c =>
        if c.teacher_id ≠ caller.id then (.forbidden, db)
        else if db.lessons.any (fun l => l.course_id = c.id) ∨
            db.enrollments.any (fun e => e.course_id = c.id) then
          (.integrityError, db)
        else
          (.ok, { db with courses :=
            db.courses.filter (fun x => x.id ≠ c.id) })

/-- Result of `course_detail`: the course plus, for a student caller,
whether they are enrolled, and the `enrolled_students` roster
(`[e.student for e in Enrollment.query.filter_by(course_id=...)]`,
each `e.student` resolved through the FK; a dangling FK resolves to
nothing, hence `filterMap`). -/
structure CourseDetail where
  course : Course
  enrolled : Bool
  students : List User
deriving Repr, DecidableEq

/-- The roster join performed by `course_detail` for a teacher caller. -/
def courseRoster (course_id : Nat) (db : DB) : List User :=
  (db.enrollments.filter (fun e => e.course_id = course_id)).filterMap
    (fun e => db.users.find? (fun u => u.id = e.student_id))

/-- `course_detail` route: `@login_required`, `get_or_404`; `enrolled` is
computed only for a student caller, `students` only when
`session["user_role"] == "teacher"` — with no ownership comparison. -/
def course_detail (caller : Caller) (course_id : Nat) (db : DB) :
    Except Outcome CourseDetail :=
  match db.courses.find? (fun c => c.id = course_id) with
  | none => .error .notFound
  | some c =>
      let enrolled :=
        if caller.role = "student" then
          db.enrollments.any
            (fun e => e.student_id = caller.id ∧ e.course_id = c.id)
        else false
      let students :=
        if caller.role = "teacher" then courseRoster c.id db else []
      .ok ⟨c, enrolled, students⟩

/-- `add_lesson` route (POST branch).  `sanitize` is
`werkzeug.utils.secure_filename`; `file` is the uploaded file's original
name (`none` when no file part was sent); `saveOk` models whether
`file.save(...)` succeeds and `fileCommitOk` whether the commit of the
LessonFile row succeeds (both are external-collaborator outcomes).
The Lesson row is committed first; `content` comes from
`request.form.get("content")` and the column is `nullable=False`, so a
`none` content makes that first commit raise IntegrityError.  Only then is
the file handled: it is saved into the single shared upload folder under
its sanitized name (overwriting any file of the same name) and a
LessonFile row is committed. -/
def add_lesson (sanitize : String → String) (caller : Caller)
    (course_id : Nat) (title : String) (content : Option String)
    (file : Option String) (saveOk fileCommitOk : Bool) (db : DB) :
    Outcome × DB :=
  if caller.role ≠ "teacher" then (.forbidden, db)
  else
    match db.courses.find? (fun c => c.id = course_id) with
    | none => (.notFound, db)
    | some c =>
        if c.teacher_id ≠ caller.id then (.forbidden, db)
        else if content.isNone then (.integrityError, db)
        else
          let lesson : Lesson :=
            ⟨nextId (db.lessons.map (fun l => l.id)), title, content, c.id⟩
          let db1 := { db with lessons := db.lessons ++ [lesson] }
          match file with
          | none => (.ok, db1)
          | some origName =>
              if origName = "" then (.ok, db1)
              else
                let filename := sanitize origName
                if ¬saveOk then (.internalError, db1)
                else
                  let db2 := { db1 with uploads :=
                    if filename ∈ db1.uploads then db1.uploads
                    else filename :: db1.uploads }
                  if ¬fileCommitOk then (.internalError, db2)
                  else
                    (.ok, { db2 with lessonFiles := db2.lessonFiles ++
                      [⟨nextId (db2.lessonFiles.map (fun f => f.id)),
                        filename, lesson.id⟩] })

/-- One step of `delete_lesson`'s cleanup, in the order the route performs
them: physical byte removals first, then (inside the one
`db.session.delete(lesson)` + commit, via the `all, delete-orphan` cascade
on `Lesson.files`) the LessonFile rows, then the Lesson row. -/
inductive Step where
  | removeBytes (filename : String)
  | deleteFileRows
  | deleteLessonRow
deriving Repr, DecidableEq

/-- The `for file in lesson.files` loop of `delete_lesson`: for each
attached file, if the path exists in the upload folder it is removed
(`os.remove`); an already-absent file is simply skipped
(`os.path.exists` guard) and the loop proceeds. Returns the remaining
upload folder and the trace of performed byte removals. -/
def removePhysical (uploads : List String) (files : List LessonFile) :
    List String × List Step :=
  match files with
  | [] => (uploads, [])
  | f :: rest =>
      if f.filename ∈ uploads then
        let r := removePhysical
          (uploads.filter (fun n => n ≠ f.filename)) rest
        (r.1, Step.removeBytes f.filename :: r.2)
      else
        removePhysical uploads rest

/-- `delete_lesson` route: `@teacher_required`, `get_or_404` on the
lesson, ownership check through `lesson.course.teacher_id` (a dangling
`course_id` would make `lesson.course` `None` and the attribute access
blow up), then the physical-file loop, then
`db.session.delete(lesson); commit()` which cascades to the LessonFile
rows. Returns the outcome, the new state and the cleanup trace. -/
def delete_lesson (caller : Caller) (lesson_id : Nat) (db : DB) :
    Outcome × DB × List Step :=
  if caller.role ≠ "teacher" then (.forbidden, db, [])
  else
    match db.lessons.find? (fun l => l.id = lesson_id) with
    | none => (.notFound, db, [])
    | some lesson =>
        match db.courses.find? (fun c => c.id = lesson.course_id) with
        | none => (.internalError, db, [])
        | some course =>
            if course.teacher_id ≠ caller.id then (.forbidden, db, [])
            else
              let files :=
                db.lessonFiles.filter (fun f => f.lesson_id = lesson.id)
              let r := removePhysical db.uploads files
              (.ok,
               { db with
                  lessons := db.lessons.filter (fun l => l.id ≠ lesson.id),
                  lessonFiles := db.lessonFiles.filter
                    (fun f => f.lesson_id ≠ lesson.id),
                  uploads := r.1 },
               r.2 ++ [Step.deleteFileRows, Step.deleteLessonRow])

/-- `uploaded_file` route (`retrieveFile`): `@login_required`, then
`send_from_directory(UPLOAD_FOLDER, filename)` — 404 when the name is not
present in the shared folder, no ownership or enrollment check. -/
def uploaded_file (loggedIn : Bool) (filename : String) (db : DB) :
    Outcome :=
  if ¬loggedIn then .forbidden
  else if filename ∈ db.uploads then .ok
  else .notFound

/-- Number of Enrollment rows for a given (student, course) pair. -/
def enrollCount (sid cid : Nat) (db : DB) : Nat :=
  (db.enrollments.filter
    (fun e => e.student_id = sid ∧ e.course_id = cid)).length

/-! Concrete sample data used by witnesses and counterexamples. -/

def teacherA : User := ⟨1, "Alice", "alice@x", "ha", "teacher"⟩

def teacherB : User := ⟨2, "Bob", "bob@x", "hb", "teacher"⟩

def studentS : User := ⟨3, "Sam", "sam@x", "hs", "student"⟩

def algebra : Course := ⟨10, "Algebra", "desc", 1⟩

/-- A state with one course owned by teacher 1 and nothing else. -/
def dbOwned : DB := ⟨[teacherA], [algebra], [], [], [], []⟩

/-- A state with no courses at all, and one student. -/
def dbNoCourse : DB := ⟨[studentS], [], [], [], [], []⟩

/-- A state where student 3 is enrolled in course 10 owned by teacher 1,
and teacher 2 does not own the course. -/
def dbRoster : DB :=
  ⟨[teacherA, teacherB, studentS], [algebra], [⟨1, 3, 10⟩], [], [], []⟩

/-- A state where course 10 (owned by teacher 1) has an enrollment, a
lesson, a lesson file and its stored bytes. -/
def dbCascade : DB :=
  ⟨[teacherA, studentS], [algebra], [⟨1, 3, 10⟩],
   [⟨1, "L1", some "body", 10⟩], [⟨1, "notes.pdf", 1⟩], ["notes.pdf"]⟩

/-- A state where lesson 1 of course 10 has two attached files, one of
which ("b.pdf") is already absent from the upload folder. -/
def dbTwoFiles : DB :=
  ⟨[teacherA], [algebra], [], [⟨1, "L1", some "body", 10⟩],
   [⟨1, "a.pdf", 1⟩, ⟨2, "b.pdf", 1⟩], ["a.pdf"]⟩

/-- A state with two lessons of course 10 whose attachments share the
stored filename "shared.pdf". -/
def dbCollision : DB :=
  ⟨[teacherA], [algebra], [],
   [⟨1, "L1", some "body", 10⟩, ⟨2, "L2", some "body2", 10⟩],
   [⟨1, "shared.pdf", 1⟩, ⟨2, "shared.pdf", 2⟩], ["shared.pdf"]⟩

/-! Helper lemmas about the physical-file removal loop. -/

/-- `removePhysical` never adds a file to the upload folder. -/
theorem removePhysical_subset (uploads : List String)
    (files : List LessonFile) :
    ∀ n ∈ (removePhysical uploads files).1, n ∈ uploads := by
  induction files generalizing uploads with
  | nil => intro n hn; exact hn
  | cons f rest ih =>
      intro n hn
      by_cases hf : f.filename ∈ uploads
      · simp only [removePhysical, if_pos hf] at hn
        have := ih _ n hn
        exact (List.mem_filter.mp this).1
      · simp only [removePhysical, if_neg hf] at hn
        exact ih _ n hn

/-- After the loop, no processed file's name remains in the folder. -/
theorem removePhysical_removes (uploads : List String)
    (files : List LessonFile) :
    ∀ f ∈ files, f.filename ∉ (removePhysical uploads files).1 := by
  induction files generalizing uploads with
  | nil => intro f hf; cases hf
  | cons g rest ih =>
      intro f hf
      by_cases hg : g.filename ∈ uploads
      · simp only [removePhysical, if_pos hg]
        rcases List.mem_cons.mp hf with hfg | hfr
        · subst hfg
          intro hmem
          have := removePhysical_subset _ _ _ hmem
          have := (List.mem_filter.mp this).2
          simp at this
        · exact ih _ f hfr
      · simp only [removePhysical, if_neg hg]
        rcases List.mem_cons.mp hf with hfg | hfr
        · subst hfg
          intro hmem
          exact hg (removePhysical_subset _ _ _ hmem)
        · exact ih _ f hfr

/-- Every step the loop emits is a byte removal. -/
theorem removePhysical_steps (uploads : List String)
    (files : List LessonFile) :
    ∀ s ∈ (removePhysical uploads files).2, ∃ n, s = Step.removeBytes n := by
  induction files generalizing uploads with
  | nil => intro s hs; cases hs
  | cons f rest ih =>
      intro s hs
      by_cases hf : f.filename ∈ uploads
      · simp only [removePhysical, if_pos hf] at hs
        rcases List.mem_cons.mp hs with h | h
        · exact ⟨f.filename, h⟩
        · exact ih _ s h
      · simp only [removePhysical, if_neg hf] at hs
        exact ih _ s hs

/-! Claim theorems. -/

/-- C8: authentication failure is uniform — a run with an unknown email
and a run with a known email but a non-verifying password both produce the
same `invalidCredentials` outcome, so the two failures are observationally
indistinguishable to the caller. -/
theorem authenticate_uniform_failure (verify : String → String → Bool)
    (users : List User) (e1 p1 e2 p2 : String) (u : User)
    (h1 : users.find? (fun x => x.email = e1) = none)
    (h2 : users.find? (fun x => x.email = e2) = some u)
    (h3 : verify u.password p2 = false) :
    login verify users e1 p1 = login verify users e2 p2 ∧
    login verify users e1 p1 = .invalidCredentials := by
  simp [login, h1, h2, h3]

theorem authenticate_uniform_failure_witness :
    login (fun h p => h == p) [⟨1, "a", "a@x", "pw", "student"⟩]
        "b@x" "anything" =
      login (fun h p => h == p) [⟨1, "a", "a@x", "pw", "student"⟩]
        "a@x" "wrong" ∧
    login (fun h p => h == p) [⟨1, "a", "a@x", "pw", "student"⟩]
        "b@x" "anything" = .invalidCredentials :=
  authenticate_uniform_failure (fun h p => h == p)
    [⟨1, "a", "a@x", "pw", "student"⟩] "b@x" "anything" "a@x" "wrong"
    ⟨1, "a", "a@x", "pw", "student"⟩ (by decide) (by decide) (by decide)

/-- `enroll` when an Enrollment for the pair already exists: the route
just redirects, changing nothing. -/
theorem enroll_existing (caller : Caller) (cid : Nat) (db : DB)
    (hrole : caller.role = "student")
    (h : db.enrollments.any
      (fun e => e.student_id = caller.id ∧ e.course_id = cid) = true) :
    enroll caller cid db = (.ok, db) := by
  unfold enroll
  rw [if_neg (by simp [hrole]), if_pos h]

/-- `enroll` when no Enrollment for the pair exists: a fresh row is
appended and committed. -/
theorem enroll_fresh (caller : Caller) (cid : Nat) (db : DB)
    (hrole : caller.role = "student")
    (h : db.enrollments.any
      (fun e => e.student_id = caller.id ∧ e.course_id = cid) = false) :
    enroll caller cid db =
      (.ok, { db with enrollments := db.enrollments ++
        [⟨nextId (db.enrollments.map (fun e => e.id)), caller.id, cid⟩] })
    := by
  unfold enroll
  rw [if_neg (by simp [hrole]), if_neg (by rw [h]; decide)]

/-- C4: `enroll` is idempotent — starting from a state with at most one
Enrollment row for the pair, a second identical call is a no-op success
(it returns `ok` and leaves the state of the first call untouched), and
after the two calls exactly one row for the pair exists. -/
theorem enroll_idempotent (caller : Caller) (cid : Nat) (db : DB)
    (hrole : caller.role = "student")
    (hcount : enrollCount caller.id cid db ≤ 1) :
    enroll caller cid (enroll caller cid db).2 =
      (.ok, (enroll caller cid db).2) ∧
    enrollCount caller.id cid (enroll caller cid (enroll caller cid db).2).2
      = 1 := by
  by_cases h : db.enrollments.any
      (fun e => e.student_id = caller.id ∧ e.course_id = cid) = true
  · have step1 := enroll_existing caller cid db hrole h
    have hpos : 0 < enrollCount caller.id cid db := by
      rcases List.any_eq_true.mp h with ⟨e, he, hpe⟩
      exact List.length_pos_of_mem (List.mem_filter.mpr ⟨he, hpe⟩)
    refine ⟨?_, ?_⟩
    · rw [step1]
      exact step1
    · rw [step1]
      show enrollCount caller.id cid (enroll caller cid db).2 = 1
      rw [step1]
      exact le_antisymm hcount hpos
  · have hf : db.enrollments.any
        (fun e => e.student_id = caller.id ∧ e.course_id = cid) = false := by
      cases hb : db.enrollments.any
          (fun e => e.student_id = caller.id ∧ e.course_id = cid) with
      | false => rfl
      | true => exact absurd hb h
    have step1 := enroll_fresh caller cid db hrole hf
    have hnew : ((db.enrollments ++
        [(⟨nextId (db.enrollments.map (fun e => e.id)), caller.id, cid⟩ :
          Enrollment)]).any
        (fun e => e.student_id = caller.id ∧ e.course_id = cid)) = true :=
      List.any_eq_true.mpr
        ⟨⟨nextId (db.enrollments.map (fun e => e.id)), caller.id, cid⟩,
          by simp, by simp⟩
    have step2 : enroll caller cid
        ({ db with enrollments := db.enrollments ++
          [⟨nextId (db.enrollments.map (fun e => e.id)), caller.id, cid⟩] })
        = (.ok, { db with enrollments := db.enrollments ++
          [⟨nextId (db.enrollments.map (fun e => e.id)), caller.id, cid⟩] })
        := enroll_existing caller cid _ hrole hnew
    have hempty : db.enrollments.filter
        (fun e => e.student_id = caller.id ∧ e.course_id = cid) = [] := by
      rw [List.filter_eq_nil_iff]
      intro e he hpe
      exact h (List.any_eq_true.mpr ⟨e, he, hpe⟩)
    refine ⟨?_, ?_⟩
    · rw [step1]
      exact step2
    · rw [step1]
      show enrollCount caller.id cid (enroll caller cid
        ({ db with enrollments := db.enrollments ++
          [⟨nextId (db.enrollments.map (fun e => e.id)), caller.id,
            cid⟩] })).2 = 1
      rw [step2]
      show (List.filter
        (fun e => e.student_id = caller.id ∧ e.course_id = cid)
        (db.enrollments ++
          [⟨nextId (db.enrollments.map (fun e => e.id)), caller.id,
            cid⟩])).length = 1
      rw [List.filter_append, hempty]
      simp

theorem enroll_idempotent_witness :
    enroll ⟨3, "student"⟩ 10
        (enroll ⟨3, "student"⟩ 10 dbRoster).2 =
      (.ok, (enroll ⟨3, "student"⟩ 10 dbRoster).2) ∧
    enrollCount 3 10
      (enroll ⟨3, "student"⟩ 10
        (enroll ⟨3, "student"⟩ 10 dbRoster).2).2 = 1 :=
  enroll_idempotent ⟨3, "student"⟩ 10 dbRoster (by decide) (by decide)

/-- C5: `updateCourse` and `deleteCourse` refuse a teacher who does not
own the course with `Forbidden` and leave the state unchanged, and both
fail with `NotFound` (leaving the state unchanged) when no course has the
given id. -/
theorem course_mutation_requires_owner (caller : Caller) (cid : Nat)
    (t d : String) (db : DB) (hrole : caller.role = "teacher") :
    (∀ c, db.courses.find? (fun x => x.id = cid) = some c →
      c.teacher_id ≠ caller.id →
      edit_course caller cid t d db = (.forbidden, db) ∧
      delete_course caller cid db = (.forbidden, db)) ∧
    (db.courses.find? (fun x => x.id = cid) = none →
      edit_course caller cid t d db = (.notFound, db) ∧
      delete_course caller cid db = (.notFound, db)) := by
  constructor
  · intro c hc hne
    constructor
    · simp [edit_course, hrole, hc, hne]
    · simp [delete_course, hrole, hc, hne]
  · intro hc
    constructor
    · simp [edit_course, hrole, hc]
    · simp [delete_course, hrole, hc]

theorem course_mutation_requires_owner_witness :
    (edit_course ⟨2, "teacher"⟩ 10 "t" "d" dbRoster =
        (.forbidden, dbRoster) ∧
      delete_course ⟨2, "teacher"⟩ 10 dbRoster =
        (.forbidden, dbRoster)) ∧
    (edit_course ⟨2, "teacher"⟩ 99 "t" "d" dbRoster =
        (.notFound, dbRoster) ∧
      delete_course ⟨2, "teacher"⟩ 99 dbRoster =
        (.notFound, dbRoster)) :=
  ⟨(course_mutation_requires_owner ⟨2, "teacher"⟩ 10 "t" "d" dbRoster
      rfl).1 ⟨10, "Algebra", "desc", 1⟩ (by decide) (by decide),
   (course_mutation_requires_owner ⟨2, "teacher"⟩ 99 "t" "d" dbRoster
      rfl).2 (by decide)⟩

/-- C7 counterexample: with no course of id 5 in the store, a student's
`enroll(5)` does not fail with `NotFound` — it succeeds and inserts an
Enrollment row for the missing course. -/
theorem enroll_missing_course_counterexample :
    dbNoCourse.courses.find? (fun c => c.id = 5) = none ∧
    (enroll ⟨3, "student"⟩ 5 dbNoCourse).1 = .ok ∧
    (enroll ⟨3, "student"⟩ 5 dbNoCourse).2.enrollments =
      [⟨1, 3, 5⟩] := by decide

/-- C7 amended: `enroll` never looks the course up — for a student with
no existing Enrollment for the pair, it succeeds and appends a (dangling)
Enrollment row even though the course id does not exist. -/
theorem enroll_missing_course_inserts (caller : Caller) (cid : Nat)
    (db : DB) (hrole : caller.role = "student")
    (_hnc : db.courses.find? (fun c => c.id = cid) = none)
    (hne : db.enrollments.any
      (fun e => e.student_id = caller.id ∧ e.course_id = cid) = false) :
    enroll caller cid db =
      (.ok, { db with enrollments := db.enrollments ++
        [⟨nextId (db.enrollments.map (fun e => e.id)), caller.id, cid⟩] })
    :=
  enroll_fresh caller cid db hrole hne

theorem enroll_missing_course_inserts_witness :
    enroll ⟨3, "student"⟩ 5 dbNoCourse =
      (.ok, { dbNoCourse with enrollments := [⟨1, 3, 5⟩] }) :=
  enroll_missing_course_inserts ⟨3, "student"⟩ 5 dbNoCourse
    (by decide) (by decide) (by decide)

/-- C2 counterexample: teacher 2 does not own course 10 (its teacher_id
is 1), yet `course_detail` hands teacher 2 the full roster — the returned
student list is not empty. -/
theorem roster_nonowner_counterexample :
    dbRoster.courses.find? (fun c => c.id = 10) =
      some ⟨10, "Algebra", "desc", 1⟩ ∧
    (1 : Nat) ≠ 2 ∧
    course_detail ⟨2, "teacher"⟩ 10 dbRoster =
      .ok ⟨⟨10, "Algebra", "desc", 1⟩, false,
        [⟨3, "Sam", "sam@x", "hs", "student"⟩]⟩ := by
  refine ⟨by decide, by decide, ?_⟩
  rfl

/-- C2 amended: the roster in `course_detail` is gated on the caller's
role alone — every caller whose role is not teacher (in particular every
student) gets an empty roster, and every caller with role teacher gets
the full roster of the course, whether or not they own it. -/
theorem roster_gated_by_role_only (caller : Caller) (cid : Nat) (db : DB)
    (d : CourseDetail) (h : course_detail caller cid db = .ok d) :
    (caller.role ≠ "teacher" → d.students = []) ∧
    (caller.role = "teacher" → d.students = courseRoster d.course.id db)
    := by
  cases hf : db.courses.find? (fun c => c.id = cid) with
  | none => simp [course_detail, hf] at h
  | some c =>
      simp only [course_detail, hf] at h
      have hd := Except.ok.inj h
      subst hd
      constructor
      · intro hr
        simp [hr]
      · intro hr
        simp [hr]

theorem roster_gated_by_role_only_witness :
    ((⟨2, "teacher"⟩ : Caller).role ≠ "teacher" →
      (⟨⟨10, "Algebra", "desc", 1⟩, false,
        [⟨3, "Sam", "sam@x", "hs", "student"⟩]⟩ : CourseDetail).students
        = []) ∧
    ((⟨2, "teacher"⟩ : Caller).role = "teacher" →
      (⟨⟨10, "Algebra", "desc", 1⟩, false,
        [⟨3, "Sam", "sam@x", "hs", "student"⟩]⟩ : CourseDetail).students
        = courseRoster 10 dbRoster) :=
  roster_gated_by_role_only ⟨2, "teacher"⟩ 10 dbRoster
    ⟨⟨10, "Algebra", "desc", 1⟩, false,
      [⟨3, "Sam", "sam@x", "hs", "student"⟩]⟩ (by rfl)

/-- C3: with the content field omitted the form lookup yields `None`,
and since the `Lesson.content` column is declared `nullable=False` the
commit of the new Lesson raises IntegrityError instead of creating a
file-only lesson — the code contradicts its own `# TEXT OPTIONAL`
comment and the spec. -/
theorem add_lesson_no_content_integrity_error :
    add_lesson id ⟨1, "teacher"⟩ 10 "Intro" none none true true dbOwned =
      (.integrityError, dbOwned) := by decide

/-- C1: `db.session.delete(course)` has no delete cascade configured on
`Course.lessons` / `Course.enrollments`, so the owner's delete of a
course that has a lesson and an enrollment raises IntegrityError and
changes nothing: the enrollment still lists course 10 afterwards and the
lesson file's bytes are still in the upload folder. -/
theorem delete_course_no_cascade :
    delete_course ⟨1, "teacher"⟩ 10 dbCascade =
      (.integrityError, dbCascade) ∧
    10 ∈ listEnrolledCourseIds 3 (delete_course ⟨1, "teacher"⟩ 10
      dbCascade).2 ∧
    "notes.pdf" ∈ (delete_course ⟨1, "teacher"⟩ 10 dbCascade).2.uploads
    := by decide

/-- C9: `add_lesson` commits the Lesson row before touching the file, so
when the file-save step or the LessonFile-row commit fails the route
errors out yet the new Lesson row is already in the store — state is
changed on error. -/
theorem add_lesson_not_atomic (sanitize : String → String)
    (caller : Caller) (course_id : Nat) (title text origName : String)
    (saveOk fileCommitOk : Bool) (db : DB) (c : Course)
    (hrole : caller.role = "teacher")
    (hc : db.courses.find? (fun x => x.id = course_id) = some c)
    (hown : c.teacher_id = caller.id)
    (hname : origName ≠ "")
    (hfail : saveOk = false ∨ fileCommitOk = false) :
    (add_lesson sanitize caller course_id title (some text)
      (some origName) saveOk fileCommitOk db).1 = .internalError ∧
    (add_lesson sanitize caller course_id title (some text)
      (some origName) saveOk fileCommitOk db).2.lessons =
      db.lessons ++
        [⟨nextId (db.lessons.map (fun l => l.id)), title, some text, c.id⟩]
    := by
  rcases hfail with h | h
  · subst h
    simp [add_lesson, hrole, hc, hown, hname]
  · subst h
    cases saveOk with
    | false => simp [add_lesson, hrole, hc, hown, hname]
    | true => simp [add_lesson, hrole, hc, hown, hname]

theorem add_lesson_not_atomic_witness :
    (add_lesson id ⟨1, "teacher"⟩ 10 "Intro" (some "body")
      (some "notes.pdf") false true dbOwned).1 = .internalError ∧
    (add_lesson id ⟨1, "teacher"⟩ 10 "Intro" (some "body")
      (some "notes.pdf") false true dbOwned).2.lessons =
      dbOwned.lessons ++ [⟨1, "Intro", some "body", 10⟩] :=
  add_lesson_not_atomic id ⟨1, "teacher"⟩ 10 "Intro" "body" "notes.pdf"
    false true dbOwned ⟨10, "Algebra", "desc", 1⟩ (by decide) (by decide)
    (by decide) (by decide) (Or.inl rfl)

/-- Reduction of `delete_lesson` on the authorized path: the lesson is
found, its course is found, and the caller owns it. -/
theorem delete_lesson_owner_eq (caller : Caller) (lesson_id : Nat)
    (db : DB) (lesson : Lesson) (course : Course)
    (hrole : caller.role = "teacher")
    (hl : db.lessons.find? (fun l => l.id = lesson_id) = some lesson)
    (hc : db.courses.find? (fun c => c.id = lesson.course_id) =
      some course)
    (hown : course.teacher_id = caller.id) :
    delete_lesson caller lesson_id db =
      (.ok,
       { db with
          lessons := db.lessons.filter (fun l => l.id ≠ lesson.id),
          lessonFiles := db.lessonFiles.filter
            (fun f => f.lesson_id ≠ lesson.id),
          uploads := (removePhysical db.uploads
            (db.lessonFiles.filter
              (fun f => f.lesson_id = lesson.id))).1 },
       (removePhysical db.uploads
         (db.lessonFiles.filter (fun f => f.lesson_id = lesson.id))).2 ++
         [Step.deleteFileRows, Step.deleteLessonRow]) := by
  unfold delete_lesson
  rw [if_neg (by simp [hrole])]
  simp only [hl, hc]
  rw [if_neg (by simp [hown])]

/-- C6: for the owning teacher, `delete_lesson` succeeds and its cleanup
trace is a block of physical byte removals followed by the LessonFile-row
deletion and then the Lesson-row deletion, in that order; the operation
does not abort when a byte resource is already absent (no hypothesis
constrains the upload folder), and afterwards the Lesson row, all its
LessonFile rows, and every attached filename are gone. -/
theorem delete_lesson_cleanup_order (caller : Caller) (lesson_id : Nat)
    (db : DB) (lesson : Lesson) (course : Course)
    (hrole : caller.role = "teacher")
    (hl : db.lessons.find? (fun l => l.id = lesson_id) = some lesson)
    (hc : db.courses.find? (fun c => c.id = lesson.course_id) =
      some course)
    (hown : course.teacher_id = caller.id) :
    (delete_lesson caller lesson_id db).1 = .ok ∧
    (∃ T, (delete_lesson caller lesson_id db).2.2 =
        T ++ [Step.deleteFileRows, Step.deleteLessonRow] ∧
      ∀ s ∈ T, ∃ n, s = Step.removeBytes n) ∧
    (∀ l ∈ (delete_lesson caller lesson_id db).2.1.lessons,
      l.id ≠ lesson.id) ∧
    (∀ f ∈ (delete_lesson caller lesson_id db).2.1.lessonFiles,
      f.lesson_id ≠ lesson.id) ∧
    (∀ f ∈ db.lessonFiles, f.lesson_id = lesson.id →
      f.filename ∉ (delete_lesson caller lesson_id db).2.1.uploads) := by
  rw [delete_lesson_owner_eq caller lesson_id db lesson course hrole hl
    hc hown]
  refine ⟨rfl, ⟨(removePhysical db.uploads
      (db.lessonFiles.filter (fun f => f.lesson_id = lesson.id))).2,
      rfl, removePhysical_steps _ _⟩, ?_, ?_, ?_⟩
  · intro l hlmem
    simpa using (List.mem_filter.mp hlmem).2
  · intro f hfmem
    simpa using (List.mem_filter.mp hfmem).2
  · intro f hf hfl
    exact removePhysical_removes db.uploads
      (db.lessonFiles.filter (fun g => g.lesson_id = lesson.id)) f
      (List.mem_filter.mpr ⟨hf, by simp [hfl]⟩)

theorem delete_lesson_cleanup_order_witness :
    (delete_lesson ⟨1, "teacher"⟩ 1 dbTwoFiles).1 = .ok ∧
    (∃ T, (delete_lesson ⟨1, "teacher"⟩ 1 dbTwoFiles).2.2 =
        T ++ [Step.deleteFileRows, Step.deleteLessonRow] ∧
      ∀ s ∈ T, ∃ n, s = Step.removeBytes n) ∧
    (∀ l ∈ (delete_lesson ⟨1, "teacher"⟩ 1 dbTwoFiles).2.1.lessons,
      l.id ≠ 1) ∧
    (∀ f ∈ (delete_lesson ⟨1, "teacher"⟩ 1 dbTwoFiles).2.1.lessonFiles,
      f.lesson_id ≠ 1) ∧
    (∀ f ∈ dbTwoFiles.lessonFiles, f.lesson_id = 1 →
      f.filename ∉ (delete_lesson ⟨1, "teacher"⟩ 1 dbTwoFiles).2.1.uploads)
    :=
  delete_lesson_cleanup_order ⟨1, "teacher"⟩ 1 dbTwoFiles
    ⟨1, "L1", some "body", 10⟩ ⟨10, "Algebra", "desc", 1⟩
    (by decide) (by decide) (by decide) (by decide)

/-- C10: stored bytes are keyed solely by sanitized filename in one
shared folder, so when the owner deletes a lesson, the byte resource of
each of its filenames disappears even if a LessonFile row of a different,
surviving lesson bears the same filename: that row survives but its bytes
are gone, and a subsequent authenticated download of that filename fails
with `NotFound`. -/
theorem delete_lesson_filename_collision (caller : Caller)
    (lesson_id : Nat) (db : DB) (lesson : Lesson) (course : Course)
    (f1 f2 : LessonFile)
    (hrole : caller.role = "teacher")
    (hl : db.lessons.find? (fun l => l.id = lesson_id) = some lesson)
    (hc : db.courses.find? (fun c => c.id = lesson.course_id) =
      some course)
    (hown : course.teacher_id = caller.id)
    (hf1 : f1 ∈ db.lessonFiles) (hf1l : f1.lesson_id = lesson.id)
    (hf2 : f2 ∈ db.lessonFiles) (hf2l : f2.lesson_id ≠ lesson.id)
    (hsame : f2.filename = f1.filename) :
    f2 ∈ (delete_lesson caller lesson_id db).2.1.lessonFiles ∧
    f2.filename ∉ (delete_lesson caller lesson_id db).2.1.uploads ∧
    uploaded_file true f2.filename
      (delete_lesson caller lesson_id db).2.1 = .notFound := by
  rw [delete_lesson_owner_eq caller lesson_id db lesson course hrole hl
    hc hown]
  have hnot : f2.filename ∉ (removePhysical db.uploads
      (db.lessonFiles.filter (fun f => f.lesson_id = lesson.id))).1 := by
    rw [hsame]
    exact removePhysical_removes db.uploads
      (db.lessonFiles.filter (fun g => g.lesson_id = lesson.id)) f1
      (List.mem_filter.mpr ⟨hf1, by simp [hf1l]⟩)
  refine ⟨List.mem_filter.mpr ⟨hf2, by simp [hf2l]⟩, hnot, ?_⟩
  simp [uploaded_file, hnot]

theorem delete_lesson_filename_collision_witness :
    (⟨2, "shared.pdf", 2⟩ : LessonFile) ∈
      (delete_lesson ⟨1, "teacher"⟩ 1 dbCollision).2.1.lessonFiles ∧
    "shared.pdf" ∉
      (delete_lesson ⟨1, "teacher"⟩ 1 dbCollision).2.1.uploads ∧
    uploaded_file true "shared.pdf"
      (delete_lesson ⟨1, "teacher"⟩ 1 dbCollision).2.1 = .notFound :=
  delete_lesson_filename_collision ⟨1, "teacher"⟩ 1 dbCollision
    ⟨1, "L1", some "body", 10⟩ ⟨10, "Algebra", "desc", 1⟩
    ⟨1, "shared.pdf", 1⟩ ⟨2, "shared.pdf", 2⟩
    (by decide) (by decide) (by decide) (by decide)
    (by decide) (by decide) (by decide) (by decide) (by decide)

end LMS
